import Mathlib

/-!
# Verification of the financial projection engine of `use_case_dashboard_app.py`

This file gives a shallow embedding of the financial projection engine
(`calculate_financials`, together with the use-case template catalog) of the
AI investment justification dashboard, and proves the specified properties of
the year-by-year cash-flow ledger and the summary metrics.

Modelling conventions:
* Python floats are modelled as exact rationals (`ℚ`); Python ints as `ℤ`
  (`ℕ` for the loop bound `time_horizon`).
* The engine is total.  The only degenerate arithmetic is the ROI division
  when `total_costs = 0`; its left operand `total_benefits` is a
  `numpy.float64` (it comes from `df['operational_benefit'].sum()`), and
  numpy division by zero does not raise — it yields `±inf` (`nan` for
  `0/0`) with a `RuntimeWarning` and the function returns normally.  The
  roi metric is therefore modelled as an extended value (`Float64Val`):
  finite exact rational, `+inf`, `-inf` or `nan`.
* The string sentinel `'N/A'` used for an unreached payback is modelled by a
  dedicated constructor `Payback.na`, numeric paybacks by `Payback.num`.
-/

namespace Dashboard

/-- The `UseCaseTemplate` dataclass of the source. -/
structure UseCaseTemplate where
  name : String
  description : String
  base_volume : ℤ
  base_value : ℚ
  process_cost : ℚ
  revenue_factor : ℚ
  savings_factor : ℚ
  default_revenue_lift : ℚ
  default_cost_savings : ℚ
  default_investment : ℚ
  default_maintenance_pct : ℚ
  impact_categories : List String
  category_colors : List String
deriving DecidableEq

/-- The `'order-management'` entry of `USE_CASE_TEMPLATES`. -/
def order_management : UseCaseTemplate :=
  { name := "Order Management & Validation"
    description := "Improve order capture, validation, and exception handling for complex product configurations"
    base_volume := 50000
    base_value := 2500
    process_cost := 85
    revenue_factor := 0.65
    savings_factor := 0.35
    default_revenue_lift := 0.18
    default_cost_savings := 0.25
    default_investment := 500000
    default_maintenance_pct := 0.20
    impact_categories := ["Process Automation", "Error Reduction", "Cycle Time Improvement"]
    category_colors := ["#3B82F6", "#10B981", "#8B5CF6"] }

/-- The `'invoice-processing'` entry of `USE_CASE_TEMPLATES`. -/
def invoice_processing : UseCaseTemplate :=
  { name := "Invoice Processing & Approval"
    description := "Automate invoice validation, exception handling, and payment optimization"
    base_volume := 120000
    base_value := 3500
    process_cost := 45
    revenue_factor := 0.45
    savings_factor := 0.55
    default_revenue_lift := 0.22
    default_cost_savings := 0.30
    default_investment := 450000
    default_maintenance_pct := 0.18
    impact_categories := ["Straight-Through Processing", "Early Payment Capture", "Compliance"]
    category_colors := ["#3B82F6", "#10B981", "#8B5CF6"] }

/-- The `'claims-processing'` entry of `USE_CASE_TEMPLATES`. -/
def claims_processing : UseCaseTemplate :=
  { name := "Insurance Claims Adjudication"
    description := "Accelerate claims processing with automated validation and fraud detection"
    base_volume := 85000
    base_value := 4200
    process_cost := 120
    revenue_factor := 0.50
    savings_factor := 0.50
    default_revenue_lift := 0.28
    default_cost_savings := 0.35
    default_investment := 650000
    default_maintenance_pct := 0.22
    impact_categories := ["Automation Rate", "Fraud Prevention", "Cycle Time"]
    category_colors := ["#3B82F6", "#10B981", "#8B5CF6"] }

/-- The `'customer-service'` entry of `USE_CASE_TEMPLATES`. -/
def customer_service : UseCaseTemplate :=
  { name := "Customer Service Automation"
    description := "Deflect routine inquiries and improve agent productivity with AI assistance"
    base_volume := 250000
    base_value := 85
    process_cost := 12
    revenue_factor := 0.40
    savings_factor := 0.60
    default_revenue_lift := 0.15
    default_cost_savings := 0.45
    default_investment := 380000
    default_maintenance_pct := 0.25
    impact_categories := ["Deflection & Automation", "Customer Retention", "Agent Productivity"]
    category_colors := ["#3B82F6", "#10B981", "#8B5CF6"] }

/-- The `USE_CASE_TEMPLATES` dict, as an association list in key order. -/
def USE_CASE_TEMPLATES : List (String × UseCaseTemplate) :=
  [("order-management", order_management),
   ("invoice-processing", invoice_processing),
   ("claims-processing", claims_processing),
   ("customer-service", customer_service)]

/-- One row of the dataframe built by `calculate_financials` (the dict
appended to `years`). -/
structure YearRecord where
  year : ℕ
  investment_cost : ℚ
  maintenance_cost : ℚ
  revenue_lift : ℚ
  cost_savings : ℚ
  operational_benefit : ℚ
  net_cash_flow : ℚ
  cumulative_cf : ℚ
  discounted_cf : ℚ
deriving DecidableEq

/-- The payback metric: Python assigns either a number or the string
sentinel `'N/A'` (never achieved). -/
inductive Payback where
  | na : Payback
  | num : ℚ → Payback
deriving DecidableEq

/-- The value of a numpy `float64` scalar as produced by the ROI
computation: either a finite (here: exact rational) value, or one of the
IEEE-754 non-finite values that numpy division by zero produces. -/
inductive Float64Val where
  | finite : ℚ → Float64Val
  | posInf : Float64Val
  | negInf : Float64Val
  | nan : Float64Val
deriving DecidableEq

/-- The `metrics` dict returned by `calculate_financials`.  The `roi` entry
is a numpy `float64` (because `df['operational_benefit'].sum()` is one), so
it can be non-finite. -/
structure Metrics where
  npv : ℚ
  roi : Float64Val
  payback : Payback
  total_benefits : ℚ
  total_costs : ℚ
deriving DecidableEq

/-- Line 156: `annual_maintenance = initial_investment * annual_maintenance_pct`. -/
def annual_maintenance (initial_investment annual_maintenance_pct : ℚ) : ℚ :=
  initial_investment * annual_maintenance_pct

/-- Line 159: `revenue_lift_amount = base_volume * base_value * template.revenue_factor * revenue_lift_pct`. -/
def revenue_lift_amount (base_volume : ℤ) (base_value revenue_factor revenue_lift_pct : ℚ) : ℚ :=
  (base_volume : ℚ) * base_value * revenue_factor * revenue_lift_pct

/-- Line 160: `cost_savings_amount = base_volume * process_cost * template.savings_factor * cost_savings_pct`. -/
def cost_savings_amount (base_volume : ℤ) (process_cost savings_factor cost_savings_pct : ℚ) : ℚ :=
  (base_volume : ℚ) * process_cost * savings_factor * cost_savings_pct

/-- Line 185: `ramp_factor = min(0.6 + (year * 0.15), 1.0)`. -/
def ramp_factor (year : ℕ) : ℚ :=
  min (0.6 + (year : ℚ) * 0.15) 1.0

/-- Line 186: `growth_factor = 1 + (0.03 * (year - 1))`. -/
def growth_factor (year : ℕ) : ℚ :=
  1 + 0.03 * ((year : ℚ) - 1)

/-- Lines 166-181: the year-0 (implementation year) row. -/
def year0_record (initial_investment rla csa discount_rate : ℚ) : YearRecord :=
  let year0_benefit := (rla + csa) * 0.15
  let year0_net := year0_benefit - initial_investment
  { year := 0
    investment_cost := initial_investment
    maintenance_cost := 0
    revenue_lift := rla * 0.15
    cost_savings := csa * 0.15
    operational_benefit := year0_benefit
    net_cash_flow := year0_net
    cumulative_cf := year0_net
    discounted_cf := year0_net / ((1 + discount_rate) ^ (0 : ℕ)) }

/-- Lines 185-206: the row for one post-implementation year, given the
cumulative cash flow accumulated so far. -/
def year_record (rla csa am discount_rate : ℚ) (year : ℕ) (cumulative_before : ℚ) :
    YearRecord :=
  let year_revenue := rla * ramp_factor year * growth_factor year
  let year_savings := csa * ramp_factor year * growth_factor year
  let total_benefit := year_revenue + year_savings
  let net_cf := total_benefit - am
  { year := year
    investment_cost := 0
    maintenance_cost := am
    revenue_lift := year_revenue
    cost_savings := year_savings
    operational_benefit := total_benefit
    net_cash_flow := net_cf
    cumulative_cf := cumulative_before + net_cf
    discounted_cf := net_cf / ((1 + discount_rate) ^ year) }

/-- The net cash flow of a post-implementation year (independent of the
accumulated state). -/
def loop_net (rla csa am : ℚ) (year : ℕ) : ℚ :=
  rla * ramp_factor year * growth_factor year + csa * ramp_factor year * growth_factor year - am

/-- Lines 184-206: the loop `for year in range(1, time_horizon + 1)`,
threading `cumulative_cf`; `start` is the year of the next row and `count`
the number of rows still to produce. -/
def build_years (rla csa am discount_rate : ℚ) (cum : ℚ) (start count : ℕ) :
    List YearRecord :=
  match count with
  | 0 => []
  | n + 1 =>
    let row := year_record rla csa am discount_rate start cum
    row :: build_years rla csa am discount_rate row.cumulative_cf (start + 1) n

/-- Lines 156-208: the full year-by-year ledger (the dataframe `df`). -/
def build_ledger (template : UseCaseTemplate)
    (initial_investment annual_maintenance_pct revenue_lift_pct cost_savings_pct
      discount_rate : ℚ) (time_horizon : ℕ) (base_volume : ℤ)
    (base_value process_cost : ℚ) : List YearRecord :=
  let am := annual_maintenance initial_investment annual_maintenance_pct
  let rla := revenue_lift_amount base_volume base_value template.revenue_factor revenue_lift_pct
  let csa := cost_savings_amount base_volume process_cost template.savings_factor cost_savings_pct
  let y0 := year0_record initial_investment rla csa discount_rate
  y0 :: build_years rla csa am discount_rate y0.cumulative_cf 1 time_horizon

/-- Lines 217-227: the payback scan.  `idx` is the dataframe index of the
head of the remaining list and `prev` the cumulative cash flow of the
previous row (`none` at index 0). -/
def payback_go (idx : ℕ) (prev : Option ℚ) : List ℚ → Payback
  | [] => Payback.na
  | c :: rest =>
    if 0 < c then
      match prev with
      | none => Payback.num 0
      | some p => Payback.num ((idx : ℚ) - 1 + |p| / (c - p))
    else payback_go (idx + 1) (some c) rest

/-- Lines 217-227: the payback metric from the `cumulative_cf` column. -/
def compute_payback (cfs : List ℚ) : Payback :=
  payback_go 0 none cfs

/-- Line 214: `roi = ((total_benefits - total_costs) / total_costs) * 100`,
with numpy `float64` division semantics: `total_benefits` is a
`numpy.float64` (the result of `df['operational_benefit'].sum()`), so a zero
denominator does not raise — it yields `+inf` for a positive numerator,
`-inf` for a negative one and `nan` for `0/0` (with a `RuntimeWarning`).
Multiplying by the positive constant 100 preserves inf and nan. -/
def np_div_mul100 (x y : ℚ) : Float64Val :=
  if y = 0 then
    if 0 < x then Float64Val.posInf
    else if x < 0 then Float64Val.negInf
    else Float64Val.nan
  else Float64Val.finite (x / y * 100)

/-- Lines 142-237: `calculate_financials`.  Total: the function always
returns a `(df, metrics)` pair; the only degenerate arithmetic, the ROI
division at `total_costs = 0`, produces a non-finite numpy value rather
than an exception. -/
def calculate_financials (template : UseCaseTemplate)
    (initial_investment annual_maintenance_pct revenue_lift_pct cost_savings_pct
      discount_rate : ℚ) (time_horizon : ℕ) (base_volume : ℤ)
    (base_value process_cost : ℚ) : List YearRecord × Metrics :=
  let am := annual_maintenance initial_investment annual_maintenance_pct
  let ledger := build_ledger template initial_investment annual_maintenance_pct
    revenue_lift_pct cost_savings_pct discount_rate time_horizon base_volume
    base_value process_cost
  let npv := (ledger.map YearRecord.discounted_cf).sum
  let total_benefits := (ledger.map YearRecord.operational_benefit).sum
  let total_costs := initial_investment + am * (time_horizon : ℚ)
  let roi := np_div_mul100 (total_benefits - total_costs) total_costs
  let payback := compute_payback (ledger.map YearRecord.cumulative_cf)
  (ledger,
    { npv := npv
      roi := roi
      payback := payback
      total_benefits := total_benefits
      total_costs := total_costs })

/-! ## Concrete sample inputs (used to instantiate the theorems) -/

/-- A small custom use-case profile used as a concrete test input. -/
def sampleTemplate : UseCaseTemplate :=
  { name := "Sample", description := "A small synthetic profile", base_volume := 1000,
    base_value := 100, process_cost := 20, revenue_factor := 0.5, savings_factor := 0.5,
    default_revenue_lift := 0.1, default_cost_savings := 0.1, default_investment := 12000,
    default_maintenance_pct := 0.1, impact_categories := [], category_colors := [] }

/-- The ledger produced by the engine on the sample input
`(sampleTemplate, 12000, 0.1, 0.1, 0.1, 0, 3, 1000, 100, 20)`. -/
def sampleLedger : List YearRecord :=
  [⟨0, 12000, 0, 750, 150, 900, -11100, -11100, -11100⟩,
   ⟨1, 0, 1200, 3750, 750, 4500, 3300, -7800, 3300⟩,
   ⟨2, 0, 1200, 4635, 927, 5562, 4362, -3438, 4362⟩,
   ⟨3, 0, 1200, 5300, 1060, 6360, 5160, 1722, 5160⟩]

/-- The metrics produced by the engine on the sample input. -/
def sampleMetrics : Metrics :=
  ⟨1722, Float64Val.finite ((17322 - 15600) / 15600 * 100),
    Payback.num (2 + 3438 / 5160), 17322, 15600⟩

/-- The ledger produced by the engine on the degenerate input with
`initial_investment = 0` (hence `total_costs = 0`): the engine still
returns in full. -/
def zeroCostLedger : List YearRecord :=
  [⟨0, 0, 0, 750, 150, 900, 900, 900, 900⟩,
   ⟨1, 0, 0, 3750, 750, 4500, 4500, 5400, 4500⟩,
   ⟨2, 0, 0, 4635, 927, 5562, 5562, 10962, 5562⟩,
   ⟨3, 0, 0, 5300, 1060, 6360, 6360, 17322, 6360⟩]

/-- The metrics produced by the engine on the degenerate input: roi is the
numpy `+inf` that float64 division by zero yields. -/
def zeroCostMetrics : Metrics :=
  ⟨17322, Float64Val.posInf, Payback.num 0, 17322, 0⟩

/-! ## Basic lemmas about the ledger construction -/

lemma build_years_length (rla csa am dr : ℚ) :
    ∀ (n : ℕ) (s : ℕ) (cum : ℚ), (build_years rla csa am dr cum s n).length = n := by
  intro n
  induction n with
  | zero => intro s cum; rfl
  | succ n ih => intro s cum; simp [build_years, ih]

lemma year_record_cumulative (rla csa am dr : ℚ) (y : ℕ) (c : ℚ) :
    (year_record rla csa am dr y c).cumulative_cf = c + loop_net rla csa am y := rfl

lemma year_record_net (rla csa am dr : ℚ) (y : ℕ) (c : ℚ) :
    (year_record rla csa am dr y c).net_cash_flow = loop_net rla csa am y := rfl

/-- Closed form for the rows of the year loop: the row at offset `i` is the
row for year `s + i`, whose incoming cumulative cash flow is the initial one
plus the net cash flows of the years in between. -/
lemma build_years_get (rla csa am dr : ℚ) :
    ∀ (n s : ℕ) (cum : ℚ) (i : ℕ) (h : i < (build_years rla csa am dr cum s n).length),
      (build_years rla csa am dr cum s n).get ⟨i, h⟩ =
        year_record rla csa am dr (s + i)
          (cum + ∑ j ∈ Finset.range i, loop_net rla csa am (s + j)) := by
  intro n
  induction n with
  | zero => intro s cum i h; simp [build_years] at h
  | succ n ih =>
    intro s cum i h
    cases i with
    | zero => simp [build_years]
    | succ i =>
      have h' : i < (build_years rla csa am dr
          (cum + loop_net rla csa am s) (s + 1) n).length := by
        simp only [build_years_length]
        simpa [build_years, build_years_length] using h
      have step : (build_years rla csa am dr cum s (n + 1)).get ⟨i + 1, h⟩ =
          (build_years rla csa am dr (cum + loop_net rla csa am s) (s + 1) n).get ⟨i, h'⟩ := by
        simp only [build_years, year_record_cumulative]
        exact List.get_cons_succ
      rw [step, ih]
      have harg : s + 1 + i = s + (i + 1) := by omega
      have hsum : cum + loop_net rla csa am s +
          ∑ j ∈ Finset.range i, loop_net rla csa am (s + 1 + j) =
          cum + ∑ j ∈ Finset.range (i + 1), loop_net rla csa am (s + j) := by
        rw [Finset.sum_range_succ' (fun j => loop_net rla csa am (s + j)) i]
        have : ∀ j, s + 1 + j = s + (j + 1) := fun j => by omega
        simp only [this, Nat.add_zero]
        ring
      rw [harg, hsum]

lemma build_ledger_length (t : UseCaseTemplate) (ii amp rlp csp dr : ℚ) (N : ℕ)
    (bv : ℤ) (bval pc : ℚ) :
    (build_ledger t ii amp rlp csp dr N bv bval pc).length = N + 1 := by
  simp [build_ledger, build_years_length]

lemma build_ledger_get_zero (t : UseCaseTemplate) (ii amp rlp csp dr : ℚ) (N : ℕ)
    (bv : ℤ) (bval pc : ℚ)
    (h : 0 < (build_ledger t ii amp rlp csp dr N bv bval pc).length) :
    (build_ledger t ii amp rlp csp dr N bv bval pc).get ⟨0, h⟩ =
      year0_record ii (revenue_lift_amount bv bval t.revenue_factor rlp)
        (cost_savings_amount bv pc t.savings_factor csp) dr := by
  simp [build_ledger]

lemma build_ledger_get_succ (t : UseCaseTemplate) (ii amp rlp csp dr : ℚ) (N : ℕ)
    (bv : ℤ) (bval pc : ℚ) (y : ℕ)
    (h : y + 1 < (build_ledger t ii amp rlp csp dr N bv bval pc).length) :
    (build_ledger t ii amp rlp csp dr N bv bval pc).get ⟨y + 1, h⟩ =
      year_record (revenue_lift_amount bv bval t.revenue_factor rlp)
        (cost_savings_amount bv pc t.savings_factor csp)
        (annual_maintenance ii amp) dr (1 + y)
        ((year0_record ii (revenue_lift_amount bv bval t.revenue_factor rlp)
            (cost_savings_amount bv pc t.savings_factor csp) dr).cumulative_cf +
          ∑ j ∈ Finset.range y,
            loop_net (revenue_lift_amount bv bval t.revenue_factor rlp)
              (cost_savings_amount bv pc t.savings_factor csp)
              (annual_maintenance ii amp) (1 + j)) := by
  have h' : y < (build_years (revenue_lift_amount bv bval t.revenue_factor rlp)
      (cost_savings_amount bv pc t.savings_factor csp) (annual_maintenance ii amp) dr
      (year0_record ii (revenue_lift_amount bv bval t.revenue_factor rlp)
        (cost_savings_amount bv pc t.savings_factor csp) dr).cumulative_cf 1 N).length := by
    simp only [build_years_length]
    simpa [build_ledger_length] using h
  have step : (build_ledger t ii amp rlp csp dr N bv bval pc).get ⟨y + 1, h⟩ =
      (build_years (revenue_lift_amount bv bval t.revenue_factor rlp)
        (cost_savings_amount bv pc t.savings_factor csp) (annual_maintenance ii amp) dr
        (year0_record ii (revenue_lift_amount bv bval t.revenue_factor rlp)
          (cost_savings_amount bv pc t.savings_factor csp) dr).cumulative_cf 1 N).get ⟨y, h'⟩ := by
    simp only [build_ledger]
    exact List.get_cons_succ
  rw [step, build_years_get]

/-- Every row of the year loop satisfies the record-level invariants relating
its fields. -/
lemma build_years_fields (rla csa am dr : ℚ) :
    ∀ (n s : ℕ) (cum : ℚ), ∀ r ∈ build_years rla csa am dr cum s n,
      r.operational_benefit = r.revenue_lift + r.cost_savings ∧
      r.net_cash_flow = r.operational_benefit - r.investment_cost - r.maintenance_cost ∧
      r.discounted_cf = r.net_cash_flow / (1 + dr) ^ r.year := by
  intro n
  induction n with
  | zero => intro s cum r hr; simp [build_years] at hr
  | succ n ih =>
    intro s cum r hr
    simp only [build_years, List.mem_cons] at hr
    rcases hr with hr | hr
    · subst hr
      refine ⟨rfl, ?_, rfl⟩
      simp only [year_record]
      ring
    · exact ih (s + 1) _ r hr

/-- Every row of the full ledger satisfies the record-level invariants. -/
lemma build_ledger_fields (t : UseCaseTemplate) (ii amp rlp csp dr : ℚ) (N : ℕ)
    (bv : ℤ) (bval pc : ℚ) :
    ∀ r ∈ build_ledger t ii amp rlp csp dr N bv bval pc,
      r.operational_benefit = r.revenue_lift + r.cost_savings ∧
      r.net_cash_flow = r.operational_benefit - r.investment_cost - r.maintenance_cost ∧
      r.discounted_cf = r.net_cash_flow / (1 + dr) ^ r.year := by
  intro r hr
  simp only [build_ledger, List.mem_cons] at hr
  rcases hr with hr | hr
  · subst hr
    refine ⟨?_, ?_, rfl⟩
    · simp only [year0_record]
      ring
    · simp only [year0_record]
      ring
  · exact build_years_fields _ _ _ _ _ _ _ r hr

/-- Destructor for a run of the engine: the returned ledger is
`build_ledger` and each metric is given by its defining expression. -/
lemma calculate_financials_ok {t : UseCaseTemplate} {ii amp rlp csp dr : ℚ} {N : ℕ}
    {bv : ℤ} {bval pc : ℚ} {l : List YearRecord} {m : Metrics}
    (h : calculate_financials t ii amp rlp csp dr N bv bval pc = (l, m)) :
    l = build_ledger t ii amp rlp csp dr N bv bval pc ∧
    m.npv = (l.map YearRecord.discounted_cf).sum ∧
    m.total_benefits = (l.map YearRecord.operational_benefit).sum ∧
    m.total_costs = ii + annual_maintenance ii amp * (N : ℚ) ∧
    m.roi = np_div_mul100 (m.total_benefits - m.total_costs) m.total_costs ∧
    m.payback = compute_payback (l.map YearRecord.cumulative_cf) := by
  simp only [calculate_financials, Prod.mk.injEq] at h
  obtain ⟨h1, h2⟩ := h
  subst h1
  subst h2
  exact ⟨rfl, rfl, rfl, rfl, rfl, rfl⟩

/-! ## Lemmas about the payback scan -/

/-- If the cumulative cash flow never becomes positive, the payback scan
keeps its sentinel. -/
lemma payback_go_all_nonpos :
    ∀ (cfs : List ℚ) (idx : ℕ) (prev : Option ℚ),
      (∀ c ∈ cfs, ¬ 0 < c) → payback_go idx prev cfs = Payback.na := by
  intro cfs
  induction cfs with
  | nil => intro idx prev _; rfl
  | cons c rest ih =>
    intro idx prev hall
    have hc : ¬ 0 < c := hall c (List.mem_cons_self c rest)
    simp only [payback_go, if_neg hc]
    exact ih _ _ fun x hx => hall x (List.mem_cons_of_mem c hx)

/-- Characterization of the payback scan at the first positive entry.
`idx` is the absolute index of the head and `prev` the entry before it. -/
lemma payback_go_first_pos :
    ∀ (cfs : List ℚ) (y : ℕ) (hy : y < cfs.length) (idx : ℕ) (prev : Option ℚ),
      0 < cfs.get ⟨y, hy⟩ →
      (∀ (j : ℕ) (hj : j < y), ¬ 0 < cfs.get ⟨j, hj.trans hy⟩) →
      (y = 0 → prev = none → payback_go idx prev cfs = Payback.num 0) ∧
      (∀ p : ℚ, y = 0 → prev = some p →
        payback_go idx prev cfs =
          Payback.num ((idx : ℚ) - 1 + |p| / (cfs.get ⟨y, hy⟩ - p))) ∧
      (∀ (j : ℕ) (hjy : y = j + 1) (hj : j < cfs.length),
        payback_go idx prev cfs =
          Payback.num ((idx : ℚ) + (j : ℚ) +
            |cfs.get ⟨j, hj⟩| / (cfs.get ⟨y, hy⟩ - cfs.get ⟨j, hj⟩))) := by
  intro cfs
  induction cfs with
  | nil => intro y hy; exact absurd hy (by simp)
  | cons c rest ih =>
    intro y hy idx prev hpos hfirst
    cases y with
    | zero =>
      have hc : 0 < c := by simpa using hpos
      refine ⟨?_, ?_, ?_⟩
      · intro _ hprev
        subst hprev
        simp [payback_go, if_pos hc]
      · intro p _ hprev
        subst hprev
        have e : (c :: rest).get ⟨0, hy⟩ = c := List.get_cons_zero
        rw [e]
        simp [payback_go, if_pos hc]
      · intro j hjy
        exact absurd hjy (by omega)
    | succ y' =>
      have hc : ¬ 0 < c := by simpa using hfirst 0 (Nat.succ_pos y')
      have hstep : payback_go idx prev (c :: rest) = payback_go (idx + 1) (some c) rest := by
        simp [payback_go, hc]
      have hy' : y' < rest.length := by simpa using hy
      have hpos' : 0 < rest.get ⟨y', hy'⟩ := by simpa using hpos
      have hfirst' : ∀ (j : ℕ) (hj : j < y'), ¬ 0 < rest.get ⟨j, hj.trans hy'⟩ := fun j hj => by
        simpa using hfirst (j + 1) (by omega)
      refine ⟨fun h0 => absurd h0 (by omega), fun p h0 => absurd h0 (by omega), ?_⟩
      intro j hjy hj
      have hjeq : j = y' := by omega
      subst hjeq
      cases j with
      | zero =>
        have hres := (ih 0 hy' (idx + 1) (some c) hpos' hfirst').2.1 c rfl rfl
        rw [hstep, hres]
        have e1 : (c :: rest).get ⟨0, hj⟩ = c := List.get_cons_zero
        have e2 : (c :: rest).get ⟨0 + 1, hy⟩ = rest.get ⟨0, hy'⟩ := List.get_cons_succ
        rw [e1, e2]
        congr 1
        push_cast
        ring
      | succ k =>
        have hk : k < rest.length := by omega
        have hres := (ih (k + 1) hy' (idx + 1) (some c) hpos' hfirst').2.2 k rfl hk
        rw [hstep, hres]
        have e1 : (c :: rest).get ⟨k + 1, hj⟩ = rest.get ⟨k, hk⟩ := List.get_cons_succ
        have e2 : (c :: rest).get ⟨k + 1 + 1, hy⟩ = rest.get ⟨k + 1, hy'⟩ := List.get_cons_succ
        rw [e1, e2]
        congr 1
        push_cast
        ring

/-- If the cumulative cash flow never becomes positive, the payback is the
`'N/A'` sentinel. -/
lemma compute_payback_all_nonpos (cfs : List ℚ) (h : ∀ c ∈ cfs, ¬ 0 < c) :
    compute_payback cfs = Payback.na :=
  payback_go_all_nonpos cfs 0 none h

/-- If the cumulative cash flow is already positive at index 0, the payback
is 0. -/
lemma compute_payback_zero (cfs : List ℚ) (h0 : 0 < cfs.length)
    (hpos : 0 < cfs.get ⟨0, h0⟩) : compute_payback cfs = Payback.num 0 :=
  (payback_go_first_pos cfs 0 h0 0 none hpos (fun j hj => absurd hj (by omega))).1 rfl rfl

/-- If the first positive cumulative cash flow is at index `j + 1`, the
payback is `j` plus the interpolated fraction of the crossing year. -/
lemma compute_payback_cross (cfs : List ℚ) (y : ℕ) (hy : y < cfs.length) (j : ℕ)
    (hjy : y = j + 1) (hj : j < cfs.length)
    (hpos : 0 < cfs.get ⟨y, hy⟩)
    (hfirst : ∀ (i : ℕ) (hi : i < y), ¬ 0 < cfs.get ⟨i, hi.trans hy⟩) :
    compute_payback cfs =
      Payback.num ((j : ℚ) + |cfs.get ⟨j, hj⟩| / (cfs.get ⟨y, hy⟩ - cfs.get ⟨j, hj⟩)) := by
  have hres := (payback_go_first_pos cfs y hy 0 none hpos hfirst).2.2 j hjy hj
  rw [compute_payback, hres]
  congr 1
  push_cast
  ring

/-- Transfer of indexing through the `cumulative_cf` projection. -/
lemma get_map_cumulative (l : List YearRecord) (i : ℕ)
    (hi : i < (l.map YearRecord.cumulative_cf).length) (hi' : i < l.length) :
    (l.map YearRecord.cumulative_cf).get ⟨i, hi⟩ = (l.get ⟨i, hi'⟩).cumulative_cf := by
  simp [List.get_eq_getElem]

/-- Evaluation of the engine on the sample input. -/
lemma sample_eval :
    calculate_financials sampleTemplate 12000 0.1 0.1 0.1 0 3 1000 100 20 =
      (sampleLedger, sampleMetrics) := by
  norm_num [calculate_financials, build_ledger, build_years, year0_record, year_record,
    ramp_factor, growth_factor, annual_maintenance, revenue_lift_amount, cost_savings_amount,
    compute_payback, payback_go, np_div_mul100, sampleTemplate, sampleLedger, sampleMetrics,
    min_def, abs_of_nonneg, YearRecord.mk.injEq, Metrics.mk.injEq]

/-- Evaluation of the engine on the degenerate `initial_investment = 0`
input: the engine returns a full ledger and metrics (no exception), with
roi equal to numpy `+inf`. -/
lemma zeroCost_eval :
    calculate_financials sampleTemplate 0 0.1 0.1 0.1 0 3 1000 100 20 =
      (zeroCostLedger, zeroCostMetrics) := by
  norm_num [calculate_financials, build_ledger, build_years, year0_record, year_record,
    ramp_factor, growth_factor, annual_maintenance, revenue_lift_amount, cost_savings_amount,
    compute_payback, payback_go, np_div_mul100, sampleTemplate, zeroCostLedger,
    zeroCostMetrics, min_def, abs_of_nonneg, YearRecord.mk.injEq, Metrics.mk.injEq]

/-- The ramp factor, written the way the specification writes it. -/
lemma ramp_factor_eq (y : ℕ) : ramp_factor y = min (0.6 + 0.15 * (y : ℚ)) 1.0 := by
  rw [ramp_factor, mul_comm]

/-- The year field of each ledger row equals its index. -/
lemma build_ledger_year (t : UseCaseTemplate) (ii amp rlp csp dr : ℚ) (N : ℕ)
    (bv : ℤ) (bval pc : ℚ) (y : ℕ)
    (hy : y < (build_ledger t ii amp rlp csp dr N bv bval pc).length) :
    ((build_ledger t ii amp rlp csp dr N bv bval pc).get ⟨y, hy⟩).year = y := by
  cases y with
  | zero => rw [build_ledger_get_zero]; rfl
  | succ y' =>
    rw [build_ledger_get_succ]
    simp only [year_record]
    omega

/-! ## The claims -/

/-- C1: For every valid input and every year `y` with `1 ≤ y ≤ time_horizon`,
the ledger record for year `y` has
`revenue_lift = revenue_lift_amount * min(0.6 + 0.15*y, 1.0) * (1 + 0.03*(y-1))` and
`cost_savings = cost_savings_amount * min(0.6 + 0.15*y, 1.0) * (1 + 0.03*(y-1))`
(where `revenue_lift_amount = base_volume * base_value * revenue_factor * revenue_lift_pct`
and `cost_savings_amount = base_volume * process_cost * savings_factor * cost_savings_pct`),
`operational_benefit` equal to their sum,
`net_cash_flow = operational_benefit - annual_maintenance`
(with `annual_maintenance = initial_investment * annual_maintenance_pct`), and
`discounted_cash_flow = net_cash_flow / (1 + discount_rate)^y`. -/
theorem C1_year_formulas (t : UseCaseTemplate) (ii amp rlp csp dr : ℚ) (N : ℕ)
    (bv : ℤ) (bval pc : ℚ) (hdr : -1 < dr)
    (l : List YearRecord) (m : Metrics)
    (h : calculate_financials t ii amp rlp csp dr N bv bval pc = (l, m))
    (y : ℕ) (hy1 : 1 ≤ y) (hy2 : y ≤ N) (hlen : y < l.length) :
    (l.get ⟨y, hlen⟩).year = y ∧
    (l.get ⟨y, hlen⟩).revenue_lift =
      revenue_lift_amount bv bval t.revenue_factor rlp *
        min (0.6 + 0.15 * (y : ℚ)) 1.0 * (1 + 0.03 * ((y : ℚ) - 1)) ∧
    (l.get ⟨y, hlen⟩).cost_savings =
      cost_savings_amount bv pc t.savings_factor csp *
        min (0.6 + 0.15 * (y : ℚ)) 1.0 * (1 + 0.03 * ((y : ℚ) - 1)) ∧
    (l.get ⟨y, hlen⟩).operational_benefit =
      (l.get ⟨y, hlen⟩).revenue_lift + (l.get ⟨y, hlen⟩).cost_savings ∧
    (l.get ⟨y, hlen⟩).net_cash_flow =
      (l.get ⟨y, hlen⟩).operational_benefit - annual_maintenance ii amp ∧
    (l.get ⟨y, hlen⟩).discounted_cf = (l.get ⟨y, hlen⟩).net_cash_flow / (1 + dr) ^ y := by
  obtain ⟨hl, -⟩ := calculate_financials_ok h
  subst hl
  obtain ⟨y', rfl⟩ : ∃ y', y = y' + 1 := ⟨y - 1, by omega⟩
  rw [build_ledger_get_succ, Nat.add_comm 1 y']
  refine ⟨rfl, ?_, ?_, rfl, rfl, rfl⟩
  · simp only [year_record, growth_factor]
    rw [ramp_factor_eq]
  · simp only [year_record, growth_factor]
    rw [ramp_factor_eq]

theorem C1_year_formulas_witness :
    (-1 : ℚ) < 0 ∧ (1 : ℕ) ≤ 1 ∧ (1 : ℕ) ≤ 3 ∧ 1 < sampleLedger.length ∧
    (sampleLedger.get ⟨1, by decide⟩).revenue_lift =
      revenue_lift_amount 1000 100 sampleTemplate.revenue_factor 0.1 *
        min (0.6 + 0.15 * ((1 : ℕ) : ℚ)) 1.0 * (1 + 0.03 * (((1 : ℕ) : ℚ) - 1)) :=
  ⟨by norm_num, by decide, by decide, by decide,
    (C1_year_formulas sampleTemplate 12000 0.1 0.1 0.1 0 3 1000 100 20 (by norm_num)
      sampleLedger sampleMetrics sample_eval 1 (by decide) (by decide) (by decide)).2.1⟩

/-- C2: For every valid input, the year-0 record of the ledger has
`investment_cost = initial_investment`, `maintenance_cost = 0`,
`revenue_lift = 0.15 * revenue_lift_amount`, `cost_savings = 0.15 * cost_savings_amount`,
`net_cash_flow = 0.15*(revenue_lift_amount + cost_savings_amount) - initial_investment`,
and `discounted_cash_flow` equal to `net_cash_flow`; in particular, for the
concrete inputs of the order-management scenario, the year-0 net cash flow
equals `0.15*(50000*2500*0.65*0.18 + 50000*85*0.35*0.25) - 500000`. -/
theorem C2_year0 (t : UseCaseTemplate) (ii amp rlp csp dr : ℚ) (N : ℕ)
    (bv : ℤ) (bval pc : ℚ) (hdr : -1 < dr) (hN : 1 ≤ N)
    (l : List YearRecord) (m : Metrics)
    (h : calculate_financials t ii amp rlp csp dr N bv bval pc = (l, m))
    (h0 : 0 < l.length) :
    (l.get ⟨0, h0⟩).investment_cost = ii ∧
    (l.get ⟨0, h0⟩).maintenance_cost = 0 ∧
    (l.get ⟨0, h0⟩).revenue_lift = 0.15 * revenue_lift_amount bv bval t.revenue_factor rlp ∧
    (l.get ⟨0, h0⟩).cost_savings = 0.15 * cost_savings_amount bv pc t.savings_factor csp ∧
    (l.get ⟨0, h0⟩).net_cash_flow =
      0.15 * (revenue_lift_amount bv bval t.revenue_factor rlp +
        cost_savings_amount bv pc t.savings_factor csp) - ii ∧
    (l.get ⟨0, h0⟩).discounted_cf = (l.get ⟨0, h0⟩).net_cash_flow ∧
    (∀ (l' : List YearRecord) (m' : Metrics)
      (h' : calculate_financials order_management 500000 0.20 0.18 0.25 0.08 5
        50000 2500 85 = (l', m')) (h0' : 0 < l'.length),
      (l'.get ⟨0, h0'⟩).net_cash_flow =
        0.15 * ((50000 : ℚ) * 2500 * 0.65 * 0.18 + (50000 : ℚ) * 85 * 0.35 * 0.25) - 500000) := by
  obtain ⟨hl, -⟩ := calculate_financials_ok h
  subst hl
  rw [build_ledger_get_zero]
  refine ⟨rfl, rfl, ?_, ?_, ?_, ?_, ?_⟩
  · simp only [year0_record]
    ring
  · simp only [year0_record]
    ring
  · simp only [year0_record]
    ring
  · simp only [year0_record, pow_zero, div_one]
  · intro l' m' h' h0'
    obtain ⟨hl', -⟩ := calculate_financials_ok h'
    subst hl'
    rw [build_ledger_get_zero]
    simp only [year0_record]
    norm_num [revenue_lift_amount, cost_savings_amount, order_management]

theorem C2_year0_witness :
    (-1 : ℚ) < 0 ∧ (1 : ℕ) ≤ 3 ∧ 0 < sampleLedger.length ∧
    (sampleLedger.get ⟨0, by decide⟩).net_cash_flow =
      0.15 * (revenue_lift_amount 1000 100 sampleTemplate.revenue_factor 0.1 +
        cost_savings_amount 1000 20 sampleTemplate.savings_factor 0.1) - 12000 :=
  ⟨by norm_num, by decide, by decide,
    (C2_year0 sampleTemplate 12000 0.1 0.1 0.1 0 3 1000 100 20 (by norm_num) (by decide)
      sampleLedger sampleMetrics sample_eval (by decide)).2.2.2.2.1⟩

/-- C3: For every valid input, the payback metric is determined by the first
year index `y` at which `cumulative_cash_flow[y] > 0`: if `y = 0` then
payback is 0; if `y ≥ 1` then payback is
`(y-1) + |cumulative_cash_flow[y-1]| / (cumulative_cash_flow[y] - cumulative_cash_flow[y-1])`;
and if no year has positive cumulative cash flow the payback is the
non-numeric `'N/A'` sentinel, never a number.  In particular, a cumulative
cash flow crossing from −100 at year 2 to +50 at year 3 yields payback
`2 + 100/150`. -/
theorem C3_payback (t : UseCaseTemplate) (ii amp rlp csp dr : ℚ) (N : ℕ)
    (bv : ℤ) (bval pc : ℚ) (hdr : -1 < dr) (hN : 1 ≤ N)
    (l : List YearRecord) (m : Metrics)
    (h : calculate_financials t ii amp rlp csp dr N bv bval pc = (l, m)) :
    m.payback = compute_payback (l.map YearRecord.cumulative_cf) ∧
    ((∀ r ∈ l, ¬ 0 < r.cumulative_cf) →
      m.payback = Payback.na ∧ ∀ q : ℚ, m.payback ≠ Payback.num q) ∧
    (∀ (h0 : 0 < l.length), 0 < (l.get ⟨0, h0⟩).cumulative_cf →
      m.payback = Payback.num 0) ∧
    (∀ (y : ℕ) (hy : y < l.length) (hy1 : 1 ≤ y) (hy' : y - 1 < l.length),
      0 < (l.get ⟨y, hy⟩).cumulative_cf →
      (∀ (j : ℕ) (hj : j < y), ¬ 0 < (l.get ⟨j, hj.trans hy⟩).cumulative_cf) →
      m.payback = Payback.num ((y : ℚ) - 1 +
        |(l.get ⟨y - 1, hy'⟩).cumulative_cf| /
        ((l.get ⟨y, hy⟩).cumulative_cf - (l.get ⟨y - 1, hy'⟩).cumulative_cf))) ∧
    compute_payback [-500, -300, -100, 50] = Payback.num (2 + 100 / 150) := by
  obtain ⟨-, -, -, -, -, hpb⟩ := calculate_financials_ok h
  refine ⟨hpb, ?_, ?_, ?_, ?_⟩
  · intro hall
    have hna : compute_payback (l.map YearRecord.cumulative_cf) = Payback.na := by
      apply compute_payback_all_nonpos
      intro c hc
      obtain ⟨r, hr, rfl⟩ := List.mem_map.mp hc
      exact hall r hr
    rw [hpb, hna]
    exact ⟨rfl, fun q hq => Payback.noConfusion hq⟩
  · intro h0 hpos
    have h0m : 0 < (l.map YearRecord.cumulative_cf).length := by simpa using h0
    rw [hpb]
    apply compute_payback_zero _ h0m
    rw [get_map_cumulative l 0 h0m h0]
    exact hpos
  · intro y hy hy1 hy' hpos hfirst
    have hym : y < (l.map YearRecord.cumulative_cf).length := by simpa using hy
    have hy'm : y - 1 < (l.map YearRecord.cumulative_cf).length := by simpa using hy'
    have hcross := compute_payback_cross (l.map YearRecord.cumulative_cf) y hym (y - 1)
      (by omega) hy'm
      (by rw [get_map_cumulative l y hym hy]; exact hpos)
      (fun i hi => by
        rw [get_map_cumulative l i (hi.trans hym) (hi.trans hy)]
        exact hfirst i hi)
    rw [hpb, hcross, get_map_cumulative l y hym hy, get_map_cumulative l (y - 1) hy'm hy']
    congr 1
    rw [Nat.cast_sub hy1]
    push_cast
    ring
  · norm_num [compute_payback, payback_go, abs_neg, abs_of_nonneg, Payback.num.injEq]

theorem C3_payback_witness :
    (-1 : ℚ) < 0 ∧ (1 : ℕ) ≤ 3 ∧
    sampleMetrics.payback = Payback.num (((3 : ℕ) : ℚ) - 1 +
      |(sampleLedger.get ⟨3 - 1, by decide⟩).cumulative_cf| /
      ((sampleLedger.get ⟨3, by decide⟩).cumulative_cf -
        (sampleLedger.get ⟨3 - 1, by decide⟩).cumulative_cf)) :=
  ⟨by norm_num, by decide,
    (C3_payback sampleTemplate 12000 0.1 0.1 0.1 0 3 1000 100 20 (by norm_num) (by decide)
      sampleLedger sampleMetrics sample_eval).2.2.2.1 3 (by decide) (by decide) (by decide)
      (by decide) (by decide)⟩

/-- C10 (implicit): whenever the first year index `y` with
`cumulative_cash_flow[y] > 0` satisfies `y ≥ 1`, the preceding value
`cumulative_cash_flow[y-1]` is `≤ 0`, so the interpolation denominator
`cumulative_cash_flow[y] - cumulative_cash_flow[y-1]` is strictly positive
and the payback division by zero is unreachable. -/
theorem C10_payback_denominator (t : UseCaseTemplate) (ii amp rlp csp dr : ℚ) (N : ℕ)
    (bv : ℤ) (bval pc : ℚ) (hdr : -1 < dr)
    (l : List YearRecord) (m : Metrics)
    (h : calculate_financials t ii amp rlp csp dr N bv bval pc = (l, m))
    (y : ℕ) (hy : y < l.length) (hy1 : 1 ≤ y) (hy' : y - 1 < l.length)
    (hpos : 0 < (l.get ⟨y, hy⟩).cumulative_cf)
    (hfirst : ∀ (j : ℕ) (hj : j < y), ¬ 0 < (l.get ⟨j, hj.trans hy⟩).cumulative_cf) :
    (l.get ⟨y - 1, hy'⟩).cumulative_cf ≤ 0 ∧
    0 < (l.get ⟨y, hy⟩).cumulative_cf - (l.get ⟨y - 1, hy'⟩).cumulative_cf := by
  have h1 : ¬ 0 < (l.get ⟨y - 1, hy'⟩).cumulative_cf := hfirst (y - 1) (by omega)
  have h2 : (l.get ⟨y - 1, hy'⟩).cumulative_cf ≤ 0 := not_lt.mp h1
  exact ⟨h2, sub_pos.mpr (lt_of_le_of_lt h2 hpos)⟩

theorem C10_payback_denominator_witness :
    (-1 : ℚ) < 0 ∧ 3 < sampleLedger.length ∧
    ((sampleLedger.get ⟨3 - 1, by decide⟩).cumulative_cf ≤ 0 ∧
      0 < (sampleLedger.get ⟨3, by decide⟩).cumulative_cf -
        (sampleLedger.get ⟨3 - 1, by decide⟩).cumulative_cf) :=
  ⟨by norm_num, by decide,
    C10_payback_denominator sampleTemplate 12000 0.1 0.1 0.1 0 3 1000 100 20 (by norm_num)
      sampleLedger sampleMetrics sample_eval 3 (by decide) (by decide) (by decide)
      (by decide) (by decide)⟩

/-- C4: For every valid input, the metrics satisfy
`total_benefits = sum of operational_benefit over years 0..time_horizon`,
`total_costs = initial_investment + annual_maintenance * time_horizon` and
`roi = (total_benefits - total_costs) / total_costs * 100`; and when
`total_costs = 0` the engine still returns a deterministic result — the
numpy float64 division yields `+inf`/`-inf`/`nan` by the sign of the
numerator (with a `RuntimeWarning`) — rather than raising an unhandled
exception. -/
theorem C4_roi (t : UseCaseTemplate) (ii amp rlp csp dr : ℚ) (N : ℕ)
    (bv : ℤ) (bval pc : ℚ) (hdr : -1 < dr) (hN : 1 ≤ N)
    (l : List YearRecord) (m : Metrics)
    (h : calculate_financials t ii amp rlp csp dr N bv bval pc = (l, m)) :
    m.total_benefits = (l.map YearRecord.operational_benefit).sum ∧
    m.total_costs = ii + annual_maintenance ii amp * (N : ℚ) ∧
    (m.total_costs ≠ 0 →
      m.roi = Float64Val.finite
        ((m.total_benefits - m.total_costs) / m.total_costs * 100)) ∧
    (m.total_costs = 0 →
      m.roi = if 0 < m.total_benefits then Float64Val.posInf
        else if m.total_benefits < 0 then Float64Val.negInf
        else Float64Val.nan) := by
  obtain ⟨-, -, htb, htc, hroi, -⟩ := calculate_financials_ok h
  refine ⟨htb, htc, ?_, ?_⟩
  · intro hne
    rw [hroi]
    simp only [np_div_mul100, if_neg hne]
  · intro heq
    rw [hroi, heq]
    simp [np_div_mul100]

theorem C4_roi_witness :
    (-1 : ℚ) < 0 ∧ (1 : ℕ) ≤ 3 ∧ zeroCostMetrics.total_costs = 0 ∧
    zeroCostMetrics.roi = (if 0 < zeroCostMetrics.total_benefits then Float64Val.posInf
      else if zeroCostMetrics.total_benefits < 0 then Float64Val.negInf
      else Float64Val.nan) :=
  ⟨by norm_num, by decide, rfl,
    (C4_roi sampleTemplate 0 0.1 0.1 0.1 0 3 1000 100 20 (by norm_num) (by decide)
      zeroCostLedger zeroCostMetrics zeroCost_eval).2.2.2 rfl⟩

/-- C5 (amended): for `time_horizon = 0` the engine does not fail fast: for
every input it silently returns a one-row ledger containing only the year-0
record; horizon validation is left to the caller. -/
theorem C5_horizon_zero_amended (t : UseCaseTemplate) (ii amp rlp csp dr : ℚ)
    (bv : ℤ) (bval pc : ℚ) :
    (calculate_financials t ii amp rlp csp dr 0 bv bval pc).1 =
      [year0_record ii (revenue_lift_amount bv bval t.revenue_factor rlp)
        (cost_savings_amount bv pc t.savings_factor csp) dr] := by
  simp [calculate_financials, build_ledger, build_years]

/-- C5 counterexample: at `time_horizon = 0` the engine returns a result (a
one-row ledger containing only year 0) instead of failing fast. -/
theorem C5_horizon_zero_counterexample :
    calculate_financials sampleTemplate 12000 0.1 0.1 0.1 0 0 1000 100 20 =
      ([⟨0, 12000, 0, 750, 150, 900, -11100, -11100, -11100⟩],
        ⟨-11100, Float64Val.finite ((900 - 12000) / 12000 * 100), Payback.na, 900, 12000⟩) := by
  norm_num [calculate_financials, build_ledger, build_years, year0_record, annual_maintenance,
    revenue_lift_amount, cost_savings_amount, compute_payback, payback_go, np_div_mul100,
    sampleTemplate, YearRecord.mk.injEq, Metrics.mk.injEq]

/-- C6: For every valid input and every year record `y` of the returned
ledger: `operational_benefit = revenue_lift + cost_savings`;
`net_cash_flow = operational_benefit - investment_cost - maintenance_cost`;
`cumulative_cash_flow[0] = net_cash_flow[0]` and
`cumulative_cash_flow[y] = cumulative_cash_flow[y-1] + net_cash_flow[y]` for
`y ≥ 1`; and `discounted_cash_flow[y] = net_cash_flow[y] / (1 + discount_rate)^y`. -/
theorem C6_invariants (t : UseCaseTemplate) (ii amp rlp csp dr : ℚ) (N : ℕ)
    (bv : ℤ) (bval pc : ℚ) (hdr : -1 < dr) (hN : 1 ≤ N)
    (l : List YearRecord) (m : Metrics)
    (h : calculate_financials t ii amp rlp csp dr N bv bval pc = (l, m))
    (y : ℕ) (hy : y < l.length) :
    (l.get ⟨y, hy⟩).operational_benefit =
      (l.get ⟨y, hy⟩).revenue_lift + (l.get ⟨y, hy⟩).cost_savings ∧
    (l.get ⟨y, hy⟩).net_cash_flow = (l.get ⟨y, hy⟩).operational_benefit -
      (l.get ⟨y, hy⟩).investment_cost - (l.get ⟨y, hy⟩).maintenance_cost ∧
    (l.get ⟨y, hy⟩).discounted_cf = (l.get ⟨y, hy⟩).net_cash_flow / (1 + dr) ^ y ∧
    (y = 0 → (l.get ⟨y, hy⟩).cumulative_cf = (l.get ⟨y, hy⟩).net_cash_flow) ∧
    (∀ (hy1 : 1 ≤ y) (hy' : y - 1 < l.length),
      (l.get ⟨y, hy⟩).cumulative_cf =
        (l.get ⟨y - 1, hy'⟩).cumulative_cf + (l.get ⟨y, hy⟩).net_cash_flow) := by
  obtain ⟨hl, -⟩ := calculate_financials_ok h
  subst hl
  obtain ⟨f1, f2, f3⟩ := build_ledger_fields t ii amp rlp csp dr N bv bval pc _
    (List.get_mem _ _ _)
  refine ⟨f1, f2, ?_, ?_, ?_⟩
  · rw [f3, build_ledger_year]
  · intro hy0
    subst hy0
    rw [build_ledger_get_zero]
    simp [year0_record]
  · intro hy1 hy'
    obtain ⟨y', rfl⟩ : ∃ y', y = y' + 1 := ⟨y - 1, by omega⟩
    simp only [Nat.add_sub_cancel]
    cases y' with
    | zero =>
      rw [build_ledger_get_succ, build_ledger_get_zero]
      rw [year_record_cumulative, year_record_net]
      simp
    | succ k =>
      rw [build_ledger_get_succ, build_ledger_get_succ]
      rw [year_record_cumulative, year_record_cumulative, year_record_net]
      rw [Finset.sum_range_succ]
      have : (1 : ℕ) + (k + 1) = 1 + k + 1 := by omega
      rw [this]
      ring

theorem C6_invariants_witness :
    (-1 : ℚ) < 0 ∧ (1 : ℕ) ≤ 3 ∧ 2 < sampleLedger.length ∧
    (sampleLedger.get ⟨2, by decide⟩).cumulative_cf =
      (sampleLedger.get ⟨2 - 1, by decide⟩).cumulative_cf +
        (sampleLedger.get ⟨2, by decide⟩).net_cash_flow :=
  ⟨by norm_num, by decide, by decide,
    (C6_invariants sampleTemplate 12000 0.1 0.1 0.1 0 3 1000 100 20 (by norm_num) (by decide)
      sampleLedger sampleMetrics sample_eval 2 (by decide)).2.2.2.2 (by decide) (by decide)⟩

/-- C7: For every valid input, the npv metric equals the sum of
`discounted_cash_flow` over all years; and when `discount_rate = 0`, npv
equals the sum of the undiscounted `net_cash_flow` values. -/
theorem C7_npv (t : UseCaseTemplate) (ii amp rlp csp dr : ℚ) (N : ℕ)
    (bv : ℤ) (bval pc : ℚ) (hdr : -1 < dr) (hN : 1 ≤ N)
    (l : List YearRecord) (m : Metrics)
    (h : calculate_financials t ii amp rlp csp dr N bv bval pc = (l, m)) :
    m.npv = (l.map YearRecord.discounted_cf).sum ∧
    (dr = 0 → m.npv = (l.map YearRecord.net_cash_flow).sum) := by
  obtain ⟨hl, hnpv, -⟩ := calculate_financials_ok h
  refine ⟨hnpv, ?_⟩
  intro hdr0
  subst hdr0
  subst hl
  rw [hnpv]
  congr 1
  refine List.map_congr_left fun r hr => ?_
  obtain ⟨-, -, f3⟩ := build_ledger_fields t ii amp rlp csp 0 N bv bval pc r hr
  rw [f3]
  norm_num

theorem C7_npv_witness :
    (-1 : ℚ) < 0 ∧ (1 : ℕ) ≤ 3 ∧
    sampleMetrics.npv = (sampleLedger.map YearRecord.net_cash_flow).sum :=
  ⟨by norm_num, by decide,
    (C7_npv sampleTemplate 12000 0.1 0.1 0.1 0 3 1000 100 20 (by norm_num) (by decide)
      sampleLedger sampleMetrics sample_eval).2 rfl⟩

/-- C8: For every valid input (`time_horizon ≥ 1`), the returned ledger has
exactly `time_horizon + 1` records, in order of year index `0, 1, ...,
time_horizon`. -/
theorem C8_ledger_shape (t : UseCaseTemplate) (ii amp rlp csp dr : ℚ) (N : ℕ)
    (bv : ℤ) (bval pc : ℚ) (hdr : -1 < dr) (hN : 1 ≤ N)
    (l : List YearRecord) (m : Metrics)
    (h : calculate_financials t ii amp rlp csp dr N bv bval pc = (l, m)) :
    l.length = N + 1 ∧
    ∀ (i : ℕ) (hi : i < l.length), (l.get ⟨i, hi⟩).year = i := by
  obtain ⟨hl, -⟩ := calculate_financials_ok h
  subst hl
  exact ⟨build_ledger_length t ii amp rlp csp dr N bv bval pc,
    fun i hi => build_ledger_year t ii amp rlp csp dr N bv bval pc i hi⟩

theorem C8_ledger_shape_witness :
    (-1 : ℚ) < 0 ∧ (1 : ℕ) ≤ 3 ∧ sampleLedger.length = 3 + 1 :=
  ⟨by norm_num, by decide,
    (C8_ledger_shape sampleTemplate 12000 0.1 0.1 0.1 0 3 1000 100 20 (by norm_num)
      (by decide) sampleLedger sampleMetrics sample_eval).1⟩

/-- C9: The engine is deterministic: two invocations with identical profile
and parameter inputs return identical (ledger, metrics) results; the output
depends on nothing but the arguments. -/
theorem C9_deterministic (t₁ t₂ : UseCaseTemplate)
    (ii₁ ii₂ amp₁ amp₂ rlp₁ rlp₂ csp₁ csp₂ dr₁ dr₂ : ℚ) (N₁ N₂ : ℕ)
    (bv₁ bv₂ : ℤ) (bval₁ bval₂ pc₁ pc₂ : ℚ)
    (ht : t₁ = t₂) (hii : ii₁ = ii₂) (hamp : amp₁ = amp₂) (hrlp : rlp₁ = rlp₂)
    (hcsp : csp₁ = csp₂) (hdr : dr₁ = dr₂) (hN : N₁ = N₂) (hbv : bv₁ = bv₂)
    (hbval : bval₁ = bval₂) (hpc : pc₁ = pc₂) :
    calculate_financials t₁ ii₁ amp₁ rlp₁ csp₁ dr₁ N₁ bv₁ bval₁ pc₁ =
      calculate_financials t₂ ii₂ amp₂ rlp₂ csp₂ dr₂ N₂ bv₂ bval₂ pc₂ := by
  subst ht hii hamp hrlp hcsp hdr hN hbv hbval hpc
  rfl

theorem C9_deterministic_witness :
    calculate_financials sampleTemplate 12000 0.1 0.1 0.1 0 3 1000 100 20 =
      calculate_financials sampleTemplate 12000 0.1 0.1 0.1 0 3 1000 100 20 :=
  C9_deterministic sampleTemplate sampleTemplate 12000 12000 0.1 0.1 0.1 0.1 0.1 0.1 0 0
    3 3 1000 1000 100 100 20 20 rfl rfl rfl rfl rfl rfl rfl rfl rfl rfl

end Dashboard
